import Mathlib

/-!
Shallow embedding of `src/code/intermediate/tutorial11-normals/src/model.rs`:
the model loader (`Model::load`) and the draw dispatcher (`DrawModel` impl
for `wgpu::RenderPass`).  External collaborators (the `tobj` parser and
`texture::Texture::load`) are passed in as oracle functions; GPU handles
(buffers, textures, bind groups) are modelled by the data they were created
from.  `f32` values are carried opaquely (the loader only moves them, it
never computes with them), so they are represented by their bit patterns as
naturals.  A Rust panic (out-of-bounds indexing, missing `HashMap` key) is a
distinct outcome from a typed `Result::Err`.
-/

namespace Tutorial11

/-- An `f32` value carried opaquely by its bit pattern; the loader only copies
these, it never computes with them. -/
abbrev F32 := Nat

/-- An opaque `wgpu::CommandBuffer` returned by `texture::Texture::load`. -/
abbrev CommandBuffer := Nat

/-- An opaque error value from the external texture loader. -/
abbrev TexError := Nat

/-- An opaque error value from the external `tobj` asset loader. -/
abbrev ParseErr := Nat

/-- `wgpu::VertexFormat` (the two formats the source uses). -/
inductive VertexFormat
  | Float2
  | Float3
  deriving DecidableEq

/-- `wgpu::InputStepMode`. -/
inductive InputStepMode
  | Vertex
  | Instance
  deriving DecidableEq

/-- `wgpu::VertexAttributeDescriptor`. -/
structure VertexAttributeDescriptor where
  offset : Nat
  shader_location : Nat
  format : VertexFormat
  deriving DecidableEq

/-- `wgpu::VertexBufferDescriptor`. -/
structure VertexBufferDescriptor where
  stride : Nat
  step_mode : InputStepMode
  attributes : List VertexAttributeDescriptor
  deriving DecidableEq

/-- `ModelVertex` from model.rs: `position: [f32; 3]`, `tex_coords: [f32; 2]`,
`normal: [f32; 3]`. -/
structure ModelVertex where
  position : List F32
  tex_coords : List F32
  normal : List F32
  deriving DecidableEq

/-- `mem::size_of::<[f32; n]>()`: 4 bytes per `f32`. -/
def sizeOfF32Array (n : Nat) : Nat := 4 * n

/-- `mem::size_of::<ModelVertex>()`: `repr(C)` with fields `[f32; 3]`,
`[f32; 2]`, `[f32; 3]` — eight 4-byte floats, 4-byte aligned, no padding. -/
def sizeOfModelVertex : Nat := sizeOfF32Array 8

/-- `ModelVertex::desc` (the `Vertex` trait impl, model.rs lines 19-42). -/
def ModelVertex.desc : VertexBufferDescriptor :=
  { stride := sizeOfModelVertex
    step_mode := InputStepMode.Vertex
    attributes := [
      { offset := 0, shader_location := 0, format := VertexFormat.Float3 },
      { offset := sizeOfF32Array 3, shader_location := 1, format := VertexFormat.Float2 },
      { offset := sizeOfF32Array 5, shader_location := 2, format := VertexFormat.Float3 } ] }

/-- `wgpu::BufferUsage` (the two usages the source uses). -/
inductive BufferUsage
  | VERTEX
  | INDEX
  deriving DecidableEq

/-- The data a `wgpu::Buffer` was filled from (`fill_from_slice`). -/
inductive BufferData
  | vertexData (vertices : List ModelVertex)
  | indexData (indices : List Nat)
  deriving DecidableEq

/-- A `wgpu::Buffer`, modelled by its usage and the slice it was filled from. -/
structure Buffer where
  usage : BufferUsage
  data : BufferData
  deriving DecidableEq

/-- A `texture::Texture`: its view and sampler handles, as opaque ids. -/
structure Texture where
  view : Nat
  sampler : Nat
  deriving DecidableEq

/-- `wgpu::BindingResource` (the two kinds the source uses). -/
inductive BindingResource
  | TextureView (view : Nat)
  | Sampler (sampler : Nat)
  deriving DecidableEq

/-- `wgpu::Binding`. -/
structure Binding where
  binding : Nat
  resource : BindingResource
  deriving DecidableEq

/-- A `wgpu::BindGroup`, modelled by the descriptor it was created from. -/
structure BindGroup where
  layout : Nat
  bindings : List Binding
  deriving DecidableEq

/-- `Material` from model.rs. -/
structure Material where
  name : String
  diffuse_texture : Texture
  normal_texture : Texture
  bind_group : BindGroup
  deriving DecidableEq

/-- `Mesh` from model.rs. -/
structure Mesh where
  name : String
  vertex_buffer : Buffer
  index_buffer : Buffer
  num_elements : Nat
  material : Nat
  deriving DecidableEq

/-- `Model` from model.rs. -/
structure Model where
  meshes : List Mesh
  materials : List Material
  deriving DecidableEq

/-- A raw `tobj` mesh record: flat float arrays plus indices and an optional
material id. -/
structure ObjMesh where
  positions : List F32
  texcoords : List F32
  normals : List F32
  indices : List Nat
  material_id : Option Nat
  deriving DecidableEq

/-- A raw `tobj` model record. -/
structure ObjModel where
  name : String
  mesh : ObjMesh
  deriving DecidableEq

/-- A raw `tobj` material record; `unknown_param` is the string-keyed map of
fields tobj did not recognise. -/
structure ObjMaterial where
  name : String
  diffuse_texture : String
  normal_texture : String
  unknown_param : List (String × String)
  deriving DecidableEq

/-- The external `texture::Texture::load` collaborator, as an oracle from a
path to either an error or a texture plus its deferred upload command. -/
abbrev TexLoader := String → Except TexError (Texture × CommandBuffer)

/-- The external `tobj::load_obj` collaborator, as an oracle from a path to
either a parse error or the raw model and material records. -/
abbrev ObjParser := String → Except ParseErr (List ObjModel × List ObjMaterial)

/-- `Path::join`: resolve a file name against a directory. -/
def pathJoin (dir file : String) : String := dir ++ "/" ++ file

/-- `path.parent()`: drop the last path component. -/
def parentDir (p : String) : String :=
  String.intercalate "/" (p.splitOn "/").dropLast

/-- Outcome of a fallible Rust computation: a typed `Result::Ok`, a typed
`Result::Err`, or a panic (which is not a typed result). -/
inductive RustResult (ε α : Type) where
  | ok (value : α)
  | err (error : ε)
  | panicked (msg : String)
  deriving DecidableEq

/-- One iteration of the vertex-interleaving loop body (model.rs lines
128-143): build the vertex for index `i`, reading positions at
`[3i, 3i+1, 3i+2]`, texcoords at `[2i, 2i+1]`, normals at `[3i, 3i+1, 3i+2]`.
`none` models the Rust panic on an out-of-bounds read. -/
def mkVertex (m : ObjMesh) (i : Nat) : Option ModelVertex :=
  match m.positions[i * 3]?, m.positions[i * 3 + 1]?, m.positions[i * 3 + 2]?,
        m.texcoords[i * 2]?, m.texcoords[i * 2 + 1]?,
        m.normals[i * 3]?, m.normals[i * 3 + 1]?, m.normals[i * 3 + 2]? with
  | some p0, some p1, some p2, some t0, some t1, some n0, some n1, some n2 =>
      some { position := [p0, p1, p2], tex_coords := [t0, t1], normal := [n0, n1, n2] }
  | _, _, _, _, _, _, _, _ => none

/-- Run a loop body over a list, stopping with `none` as soon as one
iteration panics (mirrors a Rust `for` loop whose body can panic). -/
def mapPanic {α β : Type} (f : α → Option β) : List α → Option (List β)
  | [] => some []
  | a :: rest =>
    match f a, mapPanic f rest with
    | some b, some bs => some (b :: bs)
    | _, _ => none

/-- The vertex-interleaving loop (model.rs lines 126-144): one vertex per
`i in 0 .. positions.len() / 3`. -/
def buildVertices (m : ObjMesh) : Option (List ModelVertex) :=
  mapPanic (mkVertex m) (List.range (m.positions.length / 3))

/-- One iteration of the mesh loop (model.rs lines 125-161): interleave the
vertices, create the vertex and index buffers, and record
`material_id.unwrap_or(0)`. -/
def loadMesh (om : ObjModel) : Option Mesh :=
  match buildVertices om.mesh with
  | none => none
  | some vertices =>
      some { name := om.name
             vertex_buffer := { usage := BufferUsage.VERTEX, data := BufferData.vertexData vertices }
             index_buffer := { usage := BufferUsage.INDEX, data := BufferData.indexData om.mesh.indices }
             num_elements := om.mesh.indices.length
             material := om.mesh.material_id.getD 0 }

/-- The mesh loop over all raw model records. -/
def loadMeshes : List ObjModel → Option (List Mesh) := mapPanic loadMesh

/-- The normal-map path resolution (model.rs lines 82-89): if the dedicated
field is empty, index `unknown_param` at `"map_Bump"`; `none` models the Rust
panic when that key is absent. -/
def resolveNormalPath (mat : ObjMaterial) : Option String :=
  if mat.normal_texture = "" then mat.unknown_param.lookup "map_Bump"
  else some mat.normal_texture

/-- `device.create_bind_group` with the four fixed bindings (model.rs lines
93-114): diffuse view, diffuse sampler, normal view, normal sampler. -/
def mkBindGroup (layout : Nat) (diffuse normal : Texture) : BindGroup :=
  { layout := layout
    bindings := [
      { binding := 0, resource := BindingResource.TextureView diffuse.view },
      { binding := 1, resource := BindingResource.Sampler diffuse.sampler },
      { binding := 2, resource := BindingResource.TextureView normal.view },
      { binding := 3, resource := BindingResource.Sampler normal.sampler } ] }

/-- One iteration of the material loop (model.rs lines 77-122): load the
diffuse texture, resolve the normal path (panicking if `"map_Bump"` is
missing), load the normal texture, and build the material with its bind
group and the two deferred upload commands in push order. -/
def loadOneMaterial (texLoad : TexLoader) (layout : Nat) (folder : String)
    (mat : ObjMaterial) : RustResult TexError (Material × List CommandBuffer) :=
  match texLoad (pathJoin folder mat.diffuse_texture) with
  | Except.error e => RustResult.err e
  | Except.ok (dtex, dcmd) =>
    match resolveNormalPath mat with
    | none => RustResult.panicked "key not found: map_Bump"
    | some npath =>
      match texLoad (pathJoin folder npath) with
      | Except.error e => RustResult.err e
      | Except.ok (ntex, ncmd) =>
          RustResult.ok
            ({ name := mat.name, diffuse_texture := dtex, normal_texture := ntex,
               bind_group := mkBindGroup layout dtex ntex }, [dcmd, ncmd])

/-- The material loop over all raw material records, accumulating materials
and command buffers in order; the first error or panic aborts the loop. -/
def loadMaterials (texLoad : TexLoader) (layout : Nat) (folder : String) :
    List ObjMaterial → RustResult TexError (List Material × List CommandBuffer)
  | [] => RustResult.ok ([], [])
  | mat :: rest =>
    match loadOneMaterial texLoad layout folder mat with
    | RustResult.err e => RustResult.err e
    | RustResult.panicked s => RustResult.panicked s
    | RustResult.ok (matOut, cmds) =>
      match loadMaterials texLoad layout folder rest with
      | RustResult.err e => RustResult.err e
      | RustResult.panicked s => RustResult.panicked s
      | RustResult.ok (mats, cmdsRest) => RustResult.ok (matOut :: mats, cmds ++ cmdsRest)

/-- The typed errors `Model::load` can return (propagated with `?`). -/
inductive LoadError where
  | parseError (e : ParseErr)
  | textureError (e : TexError)
  deriving DecidableEq

/-- Outcome of `Model::load`: a model plus its deferred upload commands, a
typed error, or a panic. -/
inductive LoadOutcome where
  | ok (model : Model) (cmds : List CommandBuffer)
  | err (e : LoadError)
  | panicked (msg : String)
  deriving DecidableEq

/-- `true` exactly when a `Model` was returned. -/
def LoadOutcome.isOk : LoadOutcome → Bool
  | LoadOutcome.ok _ _ => true
  | _ => false

/-- `Model::load` (model.rs lines 67-164): parse the asset, run the material
loop against the asset's containing directory, run the mesh loop, and return
the assembled model with the collected upload commands. -/
def load (parse : ObjParser) (texLoad : TexLoader) (layout : Nat) (path : String) : LoadOutcome :=
  match parse path with
  | Except.error e => LoadOutcome.err (LoadError.parseError e)
  | Except.ok (objModels, objMaterials) =>
    match loadMaterials texLoad layout (parentDir path) objMaterials with
    | RustResult.err e => LoadOutcome.err (LoadError.textureError e)
    | RustResult.panicked s => LoadOutcome.panicked s
    | RustResult.ok (materials, commandBuffers) =>
      match loadMeshes objModels with
      | none => LoadOutcome.panicked "index out of bounds"
      | some meshes => LoadOutcome.ok { meshes := meshes, materials := materials } commandBuffers

/-- A half-open `u32` range `start..stop`. -/
structure URange where
  start : Nat
  stop : Nat
  deriving DecidableEq

/-- A command recorded on a `wgpu::RenderPass` (the four calls the draw
dispatcher issues). -/
inductive RenderCommand where
  | setVertexBuffers (slot : Nat) (buffers : List (Buffer × Nat))
  | setIndexBuffer (buffer : Buffer) (offset : Nat)
  | setBindGroup (index : Nat) (group : BindGroup) (offsets : List Nat)
  | drawIndexed (indices : URange) (base_vertex : Int) (instances : URange)
  deriving DecidableEq

/-- `draw_mesh_instanced` (model.rs lines 180-186): the exact command
sequence recorded on the render pass. -/
def draw_mesh_instanced (mesh : Mesh) (material : Material) (instances : URange)
    (uniforms : BindGroup) : List RenderCommand :=
  [ RenderCommand.setVertexBuffers 0 [(mesh.vertex_buffer, 0)],
    RenderCommand.setIndexBuffer mesh.index_buffer 0,
    RenderCommand.setBindGroup 0 material.bind_group [],
    RenderCommand.setBindGroup 1 uniforms [],
    RenderCommand.drawIndexed { start := 0, stop := mesh.num_elements } 0 instances ]

/-- `draw_mesh` (model.rs lines 176-178): delegate with instance range `0..1`. -/
def draw_mesh (mesh : Mesh) (material : Material) (uniforms : BindGroup) : List RenderCommand :=
  draw_mesh_instanced mesh material { start := 0, stop := 1 } uniforms

/-- The loop body of `draw_model_instanced` over the remaining meshes:
look up each mesh's material by index (`none` models the Rust panic on an
out-of-range index) and record that mesh's commands. -/
def drawMeshesLoop (materials : List Material) (instances : URange) (uniforms : BindGroup) :
    List Mesh → Option (List RenderCommand)
  | [] => some []
  | mesh :: rest =>
    match materials[mesh.material]? with
    | none => none
    | some material =>
      match drawMeshesLoop materials instances uniforms rest with
      | none => none
      | some trace => some (draw_mesh_instanced mesh material instances uniforms ++ trace)

/-- `draw_model_instanced` (model.rs lines 192-197). -/
def draw_model_instanced (model : Model) (instances : URange) (uniforms : BindGroup) :
    Option (List RenderCommand) :=
  drawMeshesLoop model.materials instances uniforms model.meshes

/-- `draw_model` (model.rs lines 188-190): delegate with instance range `0..1`. -/
def draw_model (model : Model) (uniforms : BindGroup) : Option (List RenderCommand) :=
  draw_model_instanced model { start := 0, stop := 1 } uniforms

/-- A texture-loader oracle that succeeds on every path. -/
def cTexOk : TexLoader := fun _ => Except.ok ({ view := 1, sampler := 2 }, 9)

/-- A texture-loader oracle that fails on every path. -/
def cTexFail : TexLoader := fun _ => Except.error 0

/-- A parser oracle that fails on every path (e.g. a nonexistent file). -/
def cParseFail : ObjParser := fun _ => Except.error 5

/-- A raw mesh with one well-formed vertex and one index. -/
def cObjMeshGood : ObjMesh :=
  { positions := [1, 2, 3], texcoords := [4, 5], normals := [6, 7, 8],
    indices := [0], material_id := some 0 }

/-- A raw model wrapping `cObjMeshGood`. -/
def cObjModelGood : ObjModel := { name := "mdl", mesh := cObjMeshGood }

/-- A raw material whose dedicated normal-map field is set. -/
def cObjMaterialGood : ObjMaterial :=
  { name := "mat", diffuse_texture := "d.png", normal_texture := "n.png",
    unknown_param := [] }

/-- A parser oracle returning one well-formed model and one material. -/
def cParseGood : ObjParser := fun _ => Except.ok ([cObjModelGood], [cObjMaterialGood])

/-- The material `load` builds from `cObjMaterialGood` under `cTexOk`. -/
def cLoadedMaterial : Material :=
  { name := "mat", diffuse_texture := { view := 1, sampler := 2 },
    normal_texture := { view := 1, sampler := 2 },
    bind_group := mkBindGroup 0 { view := 1, sampler := 2 } { view := 1, sampler := 2 } }

/-- The mesh `load` builds from `cObjModelGood`. -/
def cLoadedMesh : Mesh :=
  { name := "mdl"
    vertex_buffer := { usage := BufferUsage.VERTEX,
                       data := BufferData.vertexData
                         [{ position := [1, 2, 3], tex_coords := [4, 5], normal := [6, 7, 8] }] }
    index_buffer := { usage := BufferUsage.INDEX, data := BufferData.indexData [0] }
    num_elements := 1
    material := 0 }

/-- The model `load` returns for `cParseGood` under `cTexOk`. -/
def cLoadedModel : Model := { meshes := [cLoadedMesh], materials := [cLoadedMaterial] }

/-- A raw mesh with no material id. -/
def cObjMeshEmpty : ObjMesh :=
  { positions := [], texcoords := [], normals := [], indices := [], material_id := none }

/-- A raw model whose mesh has no material id. -/
def cObjModelNoMat : ObjModel := { name := "mdl", mesh := cObjMeshEmpty }

/-- A parser oracle returning one model and an empty material list. -/
def cParseNoMaterials : ObjParser := fun _ => Except.ok ([cObjModelNoMat], [])

/-- The mesh `load` builds from `cObjModelNoMat`. -/
def cLoadedMeshNoMat : Mesh :=
  { name := "mdl"
    vertex_buffer := { usage := BufferUsage.VERTEX, data := BufferData.vertexData [] }
    index_buffer := { usage := BufferUsage.INDEX, data := BufferData.indexData [] }
    num_elements := 0
    material := 0 }

/-- A raw material with an empty normal field and no `"map_Bump"` entry. -/
def cMatNoBump : ObjMaterial :=
  { name := "mat", diffuse_texture := "d.png", normal_texture := "",
    unknown_param := [] }

/-- A parser oracle returning `cMatNoBump` as the only material. -/
def cParseNoBump : ObjParser := fun _ => Except.ok ([], [cMatNoBump])

/-- A raw material with an empty normal field and a `"map_Bump"` entry. -/
def cMatBump : ObjMaterial :=
  { name := "mat", diffuse_texture := "d.png", normal_texture := "",
    unknown_param := [("map_Bump", "n.png")] }

/-- A parser oracle returning `cMatBump` as the only material. -/
def cParseBump : ObjParser := fun _ => Except.ok ([], [cMatBump])

/-- A raw mesh whose normals array is shorter than the positions require. -/
def cObjMeshShortNormals : ObjMesh :=
  { positions := [1, 2, 3], texcoords := [4, 5], normals := [],
    indices := [], material_id := none }

/-- A raw model wrapping `cObjMeshShortNormals`. -/
def cObjModelShortNormals : ObjModel := { name := "mdl", mesh := cObjMeshShortNormals }

/-- A parser oracle returning the short-normals model and no materials. -/
def cParseShortNormals : ObjParser := fun _ => Except.ok ([cObjModelShortNormals], [])

/-- A concrete external bind group for draw-dispatch witnesses. -/
def cUniforms : BindGroup := { layout := 7, bindings := [] }

/-- A concrete instance range for draw-dispatch witnesses. -/
def cRange : URange := { start := 0, stop := 4 }

/-- Specification formula for the vertex the interleaving loop produces at
index `i`: position read at `[3i, 3i+1, 3i+2]`, texcoord at `[2i, 2i+1]`,
normal at `[3i, 3i+1, 3i+2]` (the `getD` defaults are irrelevant whenever
the reads are in bounds). -/
def vtxAt (m : ObjMesh) (i : Nat) : ModelVertex :=
  { position := [m.positions.getD (i * 3) 0, m.positions.getD (i * 3 + 1) 0,
                 m.positions.getD (i * 3 + 2) 0]
    tex_coords := [m.texcoords.getD (i * 2) 0, m.texcoords.getD (i * 2 + 1) 0]
    normal := [m.normals.getD (i * 3) 0, m.normals.getD (i * 3 + 1) 0,
               m.normals.getD (i * 3 + 2) 0] }

/-- Concatenate the command lists a per-mesh function produces, in order. -/
def concatMap {α β : Type} (f : α → List β) : List α → List β
  | [] => []
  | a :: rest => f a ++ concatMap f rest

/-- Whether a recorded command is an indexed draw call. -/
def isDrawCall : RenderCommand → Bool
  | RenderCommand.drawIndexed _ _ _ => true
  | _ => false

/-- Number of draw calls in a recorded command sequence. -/
def countDrawCalls (l : List RenderCommand) : Nat := (l.filter isDrawCall).length

/-- A default material used only to state list lookups with `List.getD`;
every theorem using it carries an in-bounds hypothesis that makes the
default irrelevant. -/
def fallbackMaterial : Material :=
  { name := "", diffuse_texture := { view := 0, sampler := 0 },
    normal_texture := { view := 0, sampler := 0 },
    bind_group := { layout := 0, bindings := [] } }

end Tutorial11

namespace Tutorial11

/-- In-bounds indexing with `getElem?` agrees with `getD` for any default. -/
theorem getElem?_eq_some_getD {α : Type} (l : List α) (j : Nat) (d : α)
    (hx : j < l.length) : l[j]? = some (l.getD j d) := by
  rw [List.getElem?_eq_getElem hx, List.getD_eq_getElem l d hx]

/-- If the loop body succeeds on every element, running it over the list
succeeds with the mapped results. -/
theorem mapPanic_eq_map {α β : Type} (f : α → Option β) (g : α → β) :
    ∀ l : List α, (∀ a ∈ l, f a = some (g a)) → mapPanic f l = some (l.map g)
  | [], _ => rfl
  | a :: rest, h => by
      have ha : f a = some (g a) := h a (List.mem_cons_self a rest)
      have hrest := mapPanic_eq_map f g rest fun x hx => h x (List.mem_cons_of_mem a hx)
      simp [mapPanic, ha, hrest]

/-- Every element of a successful `mapPanic` run comes from some input
element on which the loop body succeeded. -/
theorem mapPanic_mem {α β : Type} (f : α → Option β) :
    ∀ (l : List α) (bs : List β), mapPanic f l = some bs →
      ∀ b ∈ bs, ∃ a ∈ l, f a = some b := by
  intro l
  induction l with
  | nil =>
      intro bs h b hb
      simp [mapPanic] at h
      subst h
      cases hb
  | cons a rest ih =>
      intro bs h b hb
      simp only [mapPanic] at h
      cases hfa : f a with
      | none => rw [hfa] at h; simp at h
      | some b0 =>
        rw [hfa] at h
        cases hrest : mapPanic f rest with
        | none => rw [hrest] at h; simp at h
        | some bs0 =>
          rw [hrest] at h
          simp at h
          subst h
          rcases List.mem_cons.mp hb with hb0 | hbs0
          · exact ⟨a, List.mem_cons_self a rest, by rw [hfa, hb0]⟩
          · obtain ⟨x, hx, hfx⟩ := ih bs0 hrest b hbs0
            exact ⟨x, List.mem_cons_of_mem a hx, hfx⟩

/-- A successful material loop produces exactly one `Material` per raw
material record. -/
theorem loadMaterials_ok_length (texLoad : TexLoader) (layout : Nat) (folder : String) :
    ∀ (mats : List ObjMaterial) (res : List Material × List CommandBuffer),
      loadMaterials texLoad layout folder mats = RustResult.ok res →
        res.1.length = mats.length := by
  intro mats
  induction mats with
  | nil =>
      intro res h
      simp [loadMaterials] at h
      subst h
      rfl
  | cons mat rest ih =>
      intro res h
      simp only [loadMaterials] at h
      cases h1 : loadOneMaterial texLoad layout folder mat with
      | err e => rw [h1] at h; simp at h
      | panicked s => rw [h1] at h; simp at h
      | ok val =>
        obtain ⟨matOut, cmds⟩ := val
        rw [h1] at h
        cases h2 : loadMaterials texLoad layout folder rest with
        | err e => rw [h2] at h; simp at h
        | panicked s => rw [h2] at h; simp at h
        | ok val2 =>
          obtain ⟨mats2, cmds2⟩ := val2
          rw [h2] at h
          cases h
          simp [List.length_cons, ih (mats2, cmds2) h2]

/-- Every mesh of a successful mesh loop records
`material = material_id.unwrap_or(0)` of some raw model record. -/
theorem loadMeshes_material (oms : List ObjModel) (ms : List Mesh)
    (h : loadMeshes oms = some ms) :
    ∀ mesh ∈ ms, ∃ om ∈ oms, mesh.material = om.mesh.material_id.getD 0 := by
  intro mesh hmesh
  obtain ⟨om, hom, hload⟩ := mapPanic_mem loadMesh oms ms h mesh hmesh
  refine ⟨om, hom, ?_⟩
  unfold loadMesh at hload
  cases hverts : buildVertices om.mesh with
  | none => rw [hverts] at hload; simp at hload
  | some vs =>
    rw [hverts] at hload
    simp at hload
    rw [← hload]

/-- If some raw material's normal path resolves to a panic, the material
loop never returns `ok`. -/
theorem loadMaterials_missing_key (texLoad : TexLoader) (layout : Nat) (folder : String) :
    ∀ (mats : List ObjMaterial) (mat : ObjMaterial), mat ∈ mats →
      resolveNormalPath mat = none →
      ∀ res, loadMaterials texLoad layout folder mats ≠ RustResult.ok res := by
  intro mats
  induction mats with
  | nil => intro mat hm; cases hm
  | cons head rest ih =>
      intro mat hm hr res h
      simp only [loadMaterials] at h
      rcases List.mem_cons.mp hm with heq | hrest
      · subst heq
        unfold loadOneMaterial at h
        cases hd : texLoad (pathJoin folder mat.diffuse_texture) with
        | error e => rw [hd] at h; simp at h
        | ok val =>
          obtain ⟨dt, dc⟩ := val
          rw [hd] at h
          rw [hr] at h
          simp at h
      · cases h1 : loadOneMaterial texLoad layout folder head with
        | err e => rw [h1] at h; simp at h
        | panicked s => rw [h1] at h; simp at h
        | ok val =>
          obtain ⟨matOut, cmds⟩ := val
          rw [h1] at h
          cases h2 : loadMaterials texLoad layout folder rest with
          | err e => rw [h2] at h; simp at h
          | panicked s => rw [h2] at h; simp at h
          | ok val2 => exact ih mat hrest hr val2 h2

/-- The model-draw loop over meshes whose material indices are all in range
is the concatenation of the per-mesh command sequences, each using the
material looked up at the mesh's index. -/
theorem drawMeshesLoop_eq (mats : List Material) (instances : URange) (uniforms : BindGroup) :
    ∀ meshes : List Mesh, (∀ mesh ∈ meshes, mesh.material < mats.length) →
      drawMeshesLoop mats instances uniforms meshes =
        some (concatMap (fun mesh =>
          draw_mesh_instanced mesh (mats.getD mesh.material fallbackMaterial) instances uniforms)
          meshes)
  | [], _ => rfl
  | mesh :: rest, h => by
      have hm : mesh.material < mats.length := h mesh (List.mem_cons_self mesh rest)
      have hrest := drawMeshesLoop_eq mats instances uniforms rest
        fun x hx => h x (List.mem_cons_of_mem mesh hx)
      have hget : mats[mesh.material]? = some (mats.getD mesh.material fallbackMaterial) :=
        getElem?_eq_some_getD mats mesh.material fallbackMaterial hm
      rw [drawMeshesLoop, hget, hrest, concatMap]

/-- Draw calls in a concatenation add up. -/
theorem countDrawCalls_append (a b : List RenderCommand) :
    countDrawCalls (a ++ b) = countDrawCalls a + countDrawCalls b := by
  simp [countDrawCalls, List.filter_append]

/-- Each per-mesh command sequence contains exactly one draw call, so the
concatenated trace contains one draw call per mesh. -/
theorem countDrawCalls_concatMap (mats : List Material) (instances : URange)
    (uniforms : BindGroup) :
    ∀ meshes : List Mesh,
      countDrawCalls (concatMap (fun mesh =>
        draw_mesh_instanced mesh (mats.getD mesh.material fallbackMaterial) instances uniforms)
        meshes) = meshes.length
  | [] => rfl
  | mesh :: rest => by
      have ih := countDrawCalls_concatMap mats instances uniforms rest
      have h1 : countDrawCalls
          (draw_mesh_instanced mesh (mats.getD mesh.material fallbackMaterial) instances uniforms) = 1 := rfl
      show countDrawCalls (draw_mesh_instanced mesh _ instances uniforms ++ _) = rest.length + 1
      rw [countDrawCalls_append, ih, h1]
      omega

/-- C6: `draw_mesh_instanced` emits exactly this command sequence: bind the
mesh's vertex buffer at vertex-buffer slot 0, bind the mesh's index buffer,
bind the material's bind group at binding-group slot 0, bind the external
bind group at slot 1, and only then issue a single indexed draw over indices
`[0, num_elements)` and the given instance range. -/
theorem draw_mesh_instanced_commands (mesh : Mesh) (material : Material)
    (instances : URange) (uniforms : BindGroup) :
    draw_mesh_instanced mesh material instances uniforms =
      [ RenderCommand.setVertexBuffers 0 [(mesh.vertex_buffer, 0)],
        RenderCommand.setIndexBuffer mesh.index_buffer 0,
        RenderCommand.setBindGroup 0 material.bind_group [],
        RenderCommand.setBindGroup 1 uniforms [],
        RenderCommand.drawIndexed { start := 0, stop := mesh.num_elements } 0 instances ] := rfl

/-- C10: `draw_mesh` emits exactly the same commands as
`draw_mesh_instanced` with instance range `[0, 1)`. -/
theorem draw_mesh_eq_instanced (mesh : Mesh) (material : Material) (uniforms : BindGroup) :
    draw_mesh mesh material uniforms =
      draw_mesh_instanced mesh material { start := 0, stop := 1 } uniforms := rfl

/-- C8: the vertex layout descriptor is a constant whose stride equals the
byte size of one `ModelVertex` record (32 bytes) and whose attribute list is
exactly: position at shader location 0, offset 0, Float3; texture coordinate
at location 1, offset = size of 3 floats (12), Float2; normal at location 2,
offset = size of 5 floats (20), Float3. -/
theorem desc_layout :
    ModelVertex.desc.stride = sizeOfModelVertex ∧
    ModelVertex.desc.stride = 32 ∧
    ModelVertex.desc.attributes = [
      { offset := 0, shader_location := 0, format := VertexFormat.Float3 },
      { offset := sizeOfF32Array 3, shader_location := 1, format := VertexFormat.Float2 },
      { offset := sizeOfF32Array 5, shader_location := 2, format := VertexFormat.Float3 } ] ∧
    ModelVertex.desc.attributes.length = 3 := ⟨rfl, rfl, rfl, rfl⟩

/-- When every read of the loop body at index `i` is in bounds, the body
produces exactly the vertex the specification formula describes. -/
theorem mkVertex_eq_vtxAt (m : ObjMesh) (i : Nat)
    (hi : i < m.positions.length / 3)
    (h1 : 2 * (m.positions.length / 3) ≤ m.texcoords.length)
    (h2 : 3 * (m.positions.length / 3) ≤ m.normals.length) :
    mkVertex m i = some (vtxAt m i) := by
  have hp0 : i * 3 < m.positions.length := by omega
  have hp1 : i * 3 + 1 < m.positions.length := by omega
  have hp2 : i * 3 + 2 < m.positions.length := by omega
  have ht0 : i * 2 < m.texcoords.length := by omega
  have ht1 : i * 2 + 1 < m.texcoords.length := by omega
  have hn0 : i * 3 < m.normals.length := by omega
  have hn1 : i * 3 + 1 < m.normals.length := by omega
  have hn2 : i * 3 + 2 < m.normals.length := by omega
  unfold mkVertex
  rw [getElem?_eq_some_getD _ _ 0 hp0, getElem?_eq_some_getD _ _ 0 hp1,
      getElem?_eq_some_getD _ _ 0 hp2, getElem?_eq_some_getD _ _ 0 ht0,
      getElem?_eq_some_getD _ _ 0 ht1, getElem?_eq_some_getD _ _ 0 hn0,
      getElem?_eq_some_getD _ _ 0 hn1, getElem?_eq_some_getD _ _ 0 hn2]
  rfl

/-- C3: when the texcoord and normal arrays are long enough, vertex
interleaving is a pure function of the three flat input arrays: the output
has `positions.length / 3` vertices, and the vertex at index `i` has
`position = [pos[3i], pos[3i+1], pos[3i+2]]`,
`tex_coords = [tc[2i], tc[2i+1]]` and
`normal = [norm[3i], norm[3i+1], norm[3i+2]]` (as `vtxAt` states). -/
theorem interleave_spec (m : ObjMesh)
    (h1 : 2 * (m.positions.length / 3) ≤ m.texcoords.length)
    (h2 : 3 * (m.positions.length / 3) ≤ m.normals.length) :
    buildVertices m = some ((List.range (m.positions.length / 3)).map (vtxAt m)) ∧
    ((List.range (m.positions.length / 3)).map (vtxAt m)).length = m.positions.length / 3 ∧
    ∀ i, i < m.positions.length / 3 →
      ((List.range (m.positions.length / 3)).map (vtxAt m))[i]? = some (vtxAt m i) := by
  refine ⟨?_, by simp, ?_⟩
  · unfold buildVertices
    exact mapPanic_eq_map (mkVertex m) (vtxAt m) _ fun i hiMem =>
      mkVertex_eq_vtxAt m i (List.mem_range.mp hiMem) h1 h2
  · intro i hi
    simp [List.getElem?_map, List.getElem?_range, hi]

/-- Witness for C3 at a concrete one-vertex mesh. -/
theorem interleave_spec_witness :
    (2 * (cObjMeshGood.positions.length / 3) ≤ cObjMeshGood.texcoords.length) ∧
    (3 * (cObjMeshGood.positions.length / 3) ≤ cObjMeshGood.normals.length) ∧
    (buildVertices cObjMeshGood =
        some ((List.range (cObjMeshGood.positions.length / 3)).map (vtxAt cObjMeshGood)) ∧
      ((List.range (cObjMeshGood.positions.length / 3)).map (vtxAt cObjMeshGood)).length =
        cObjMeshGood.positions.length / 3 ∧
      ∀ i, i < cObjMeshGood.positions.length / 3 →
        ((List.range (cObjMeshGood.positions.length / 3)).map (vtxAt cObjMeshGood))[i]? =
          some (vtxAt cObjMeshGood i)) :=
  ⟨by decide, by decide, interleave_spec cObjMeshGood (by decide) (by decide)⟩

/-- C4: a parser output whose normals array is shorter than the positions
require makes the interleaving loop hit an out-of-bounds read: the error
branch of the embedded indexing is reached, and `load` panics rather than
returning a structured error. -/
theorem short_normals_panics :
    buildVertices cObjMeshShortNormals = none ∧
    load cParseShortNormals cTexFail 0 "a/b.obj" = LoadOutcome.panicked "index out of bounds" :=
  ⟨by decide, by decide⟩

/-- C5: when every mesh's material index is in range, `draw_model_instanced`
records exactly the concatenation, in `model.meshes` order, of each mesh's
full `draw_mesh_instanced` sequence using the material looked up at
`model.materials[mesh.material]` — one draw call per mesh, with no batching
or state-change elimination — and `draw_model` delegates with range `[0,1)`. -/
theorem draw_model_one_draw_per_mesh (model : Model) (instances : URange) (uniforms : BindGroup)
    (h : ∀ mesh ∈ model.meshes, mesh.material < model.materials.length) :
    draw_model_instanced model instances uniforms =
      some (concatMap (fun mesh =>
        draw_mesh_instanced mesh (model.materials.getD mesh.material fallbackMaterial)
          instances uniforms) model.meshes) ∧
    countDrawCalls (concatMap (fun mesh =>
      draw_mesh_instanced mesh (model.materials.getD mesh.material fallbackMaterial)
        instances uniforms) model.meshes) = model.meshes.length ∧
    draw_model model uniforms = draw_model_instanced model { start := 0, stop := 1 } uniforms :=
  ⟨drawMeshesLoop_eq model.materials instances uniforms model.meshes h,
   countDrawCalls_concatMap model.materials instances uniforms model.meshes, rfl⟩

/-- Witness for C5 at a concrete one-mesh, one-material model. -/
theorem draw_model_one_draw_per_mesh_witness :
    (∀ mesh ∈ cLoadedModel.meshes, mesh.material < cLoadedModel.materials.length) ∧
    (draw_model_instanced cLoadedModel cRange cUniforms =
        some (concatMap (fun mesh =>
          draw_mesh_instanced mesh (cLoadedModel.materials.getD mesh.material fallbackMaterial)
            cRange cUniforms) cLoadedModel.meshes) ∧
      countDrawCalls (concatMap (fun mesh =>
        draw_mesh_instanced mesh (cLoadedModel.materials.getD mesh.material fallbackMaterial)
          cRange cUniforms) cLoadedModel.meshes) = cLoadedModel.meshes.length ∧
      draw_model cLoadedModel cUniforms =
        draw_model_instanced cLoadedModel { start := 0, stop := 1 } cUniforms) :=
  ⟨by decide, draw_model_one_draw_per_mesh cLoadedModel cRange cUniforms (by decide)⟩

/-- C9: when the parser fails on a path (e.g. the file does not exist),
`load` returns a typed `ParseError` carrying no model and no deferred
upload commands; no `Model` is produced. -/
theorem parse_error_aborts (parse : ObjParser) (texLoad : TexLoader) (layout : Nat)
    (path : String) (e : ParseErr) (hp : parse path = Except.error e) :
    load parse texLoad layout path = LoadOutcome.err (LoadError.parseError e) ∧
    (load parse texLoad layout path).isOk = false := by
  have hmain : load parse texLoad layout path = LoadOutcome.err (LoadError.parseError e) := by
    unfold load
    rw [hp]
  exact ⟨hmain, by rw [hmain]; rfl⟩

/-- Witness for C9 at a concrete always-failing parser. -/
theorem parse_error_aborts_witness :
    cParseFail "missing.obj" = Except.error 5 ∧
    (load cParseFail cTexOk 0 "missing.obj" = LoadOutcome.err (LoadError.parseError 5) ∧
     (load cParseFail cTexOk 0 "missing.obj").isOk = false) :=
  ⟨rfl, parse_error_aborts cParseFail cTexOk 0 "missing.obj" 5 rfl⟩

/-- C7: a material whose dedicated normal-map field is empty but whose
`unknown_param` mapping has a (non-empty) `"map_Bump"` entry loads through
the fallback path: the normal texture is loaded from the `map_Bump` value
joined to the asset's containing directory, and `load` succeeds. -/
theorem map_bump_fallback (parse : ObjParser) (texLoad : TexLoader) (layout : Nat)
    (path : String) (mat : ObjMaterial) (p : String) (dt nt : Texture)
    (cb1 cb2 : CommandBuffer)
    (hp : parse path = Except.ok ([], [mat]))
    (hempty : mat.normal_texture = "")
    (hbump : mat.unknown_param.lookup "map_Bump" = some p)
    (_hpne : p ≠ "")
    (hd : texLoad (pathJoin (parentDir path) mat.diffuse_texture) = Except.ok (dt, cb1))
    (hn : texLoad (pathJoin (parentDir path) p) = Except.ok (nt, cb2)) :
    load parse texLoad layout path =
      LoadOutcome.ok
        { meshes := [],
          materials := [{ name := mat.name, diffuse_texture := dt, normal_texture := nt,
                          bind_group := mkBindGroup layout dt nt }] }
        [cb1, cb2] := by
  unfold load
  rw [hp]
  simp [loadMaterials, loadOneMaterial, resolveNormalPath, hd, hempty, hbump, hn,
    loadMeshes, mapPanic]

/-- Witness for C7 at a concrete material with only a `map_Bump` entry. -/
theorem map_bump_fallback_witness :
    (cParseBump "a/b.obj" = Except.ok ([], [cMatBump])) ∧
    (cMatBump.normal_texture = "") ∧
    (cMatBump.unknown_param.lookup "map_Bump" = some "n.png") ∧
    ("n.png" ≠ "") ∧
    (cTexOk (pathJoin (parentDir "a/b.obj") cMatBump.diffuse_texture) =
      Except.ok ({ view := 1, sampler := 2 }, 9)) ∧
    (cTexOk (pathJoin (parentDir "a/b.obj") "n.png") =
      Except.ok ({ view := 1, sampler := 2 }, 9)) ∧
    load cParseBump cTexOk 0 "a/b.obj" =
      LoadOutcome.ok
        { meshes := [],
          materials := [{ name := cMatBump.name,
                          diffuse_texture := { view := 1, sampler := 2 },
                          normal_texture := { view := 1, sampler := 2 },
                          bind_group := mkBindGroup 0 { view := 1, sampler := 2 }
                            { view := 1, sampler := 2 } }] }
        [9, 9] :=
  ⟨rfl, rfl, by decide, by decide, rfl, rfl,
   map_bump_fallback cParseBump cTexOk 0 "a/b.obj" cMatBump "n.png"
     { view := 1, sampler := 2 } { view := 1, sampler := 2 } 9 9
     rfl rfl (by decide) (by decide) rfl rfl⟩

/-- Counterexample to C1 as stated: a successful `load` of an asset with one
mesh and zero materials yields `material_index = 0`, which is not a valid
index into the empty `materials` list — the `unwrap_or(0)` fallback does not
establish the claimed invariant. -/
theorem material_index_counterexample :
    load cParseNoMaterials cTexFail 0 "a/b.obj" =
      LoadOutcome.ok { meshes := [cLoadedMeshNoMat], materials := [] } [] ∧
    cLoadedMeshNoMat ∈ ({ meshes := [cLoadedMeshNoMat], materials := [] } : Model).meshes ∧
    ¬ cLoadedMeshNoMat.material <
        ({ meshes := [cLoadedMeshNoMat], materials := [] } : Model).materials.length :=
  ⟨by decide, by decide, by decide⟩

/-- C1 (amended): if every raw mesh record's material reference — defaulted
to `0` when absent — is already a valid index into the raw material list,
then every `Mesh.material` of a successfully loaded `Model` is a valid
index into `Model.materials`. The loader only defaults absent references;
it does not clamp out-of-range ones. -/
theorem material_index_in_range (parse : ObjParser) (texLoad : TexLoader) (layout : Nat)
    (path : String) (oms : List ObjModel) (omats : List ObjMaterial)
    (model : Model) (cmds : List CommandBuffer)
    (hp : parse path = Except.ok (oms, omats))
    (hid : ∀ om ∈ oms, om.mesh.material_id.getD 0 < omats.length)
    (hload : load parse texLoad layout path = LoadOutcome.ok model cmds) :
    ∀ mesh ∈ model.meshes, mesh.material < model.materials.length := by
  unfold load at hload
  rw [hp] at hload
  cases hmats : loadMaterials texLoad layout (parentDir path) omats with
  | err e => simp [hmats] at hload
  | panicked s => simp [hmats] at hload
  | ok val =>
    obtain ⟨mats, cbs⟩ := val
    cases hmeshes : loadMeshes oms with
    | none => simp [hmats, hmeshes] at hload
    | some meshes =>
      simp [hmats, hmeshes] at hload
      obtain ⟨hmodel, hcmds⟩ := hload
      subst hmodel
      intro mesh hmesh
      obtain ⟨om, hom, heq⟩ := loadMeshes_material oms meshes hmeshes mesh hmesh
      have hlen : mats.length = omats.length :=
        loadMaterials_ok_length texLoad layout (parentDir path) omats (mats, cbs) hmats
      simpa [heq, hlen] using hid om hom

/-- Witness for the amended C1 at a concrete successful load. -/
theorem material_index_in_range_witness :
    (cParseGood "a/b.obj" = Except.ok ([cObjModelGood], [cObjMaterialGood])) ∧
    (∀ om ∈ [cObjModelGood], om.mesh.material_id.getD 0 <
      ([cObjMaterialGood] : List ObjMaterial).length) ∧
    (load cParseGood cTexOk 0 "a/b.obj" = LoadOutcome.ok cLoadedModel [9, 9]) ∧
    (∀ mesh ∈ cLoadedModel.meshes, mesh.material < cLoadedModel.materials.length) :=
  ⟨rfl, by decide, by decide,
   material_index_in_range cParseGood cTexOk 0 "a/b.obj" [cObjModelGood] [cObjMaterialGood]
     cLoadedModel [9, 9] rfl (by decide) (by decide)⟩

/-- Counterexample to C2 as stated: a material with an empty dedicated
normal-map field and no `"map_Bump"` entry makes `load` panic at the
missing-key map indexing — the failure is a panic, not a typed error result
(the code has no `MissingNormalMapError`). -/
theorem missing_normal_map_counterexample :
    load cParseNoBump cTexOk 0 "a/b.obj" = LoadOutcome.panicked "key not found: map_Bump" := by
  decide

/-- C2 (amended): for a material record with an empty dedicated normal-map
field and no `"map_Bump"` entry in the unrecognized-field mapping, `load`
never returns a `Model` — it aborts with a panic at the missing-key lookup
(or with an earlier error), not with a typed `MissingNormalMapError`. -/
theorem missing_normal_map_no_model (parse : ObjParser) (texLoad : TexLoader) (layout : Nat)
    (path : String) (oms : List ObjModel) (omats : List ObjMaterial) (mat : ObjMaterial)
    (hp : parse path = Except.ok (oms, omats))
    (hm : mat ∈ omats)
    (hempty : mat.normal_texture = "")
    (hnokey : mat.unknown_param.lookup "map_Bump" = none) :
    (load parse texLoad layout path).isOk = false := by
  have hres : resolveNormalPath mat = none := by
    simp [resolveNormalPath, hempty, hnokey]
  unfold load
  rw [hp]
  cases hmats : loadMaterials texLoad layout (parentDir path) omats with
  | ok res =>
    exact absurd hmats
      (loadMaterials_missing_key texLoad layout (parentDir path) omats mat hm hres res)
  | err e => simp [hmats, LoadOutcome.isOk]
  | panicked s => simp [hmats, LoadOutcome.isOk]

/-- Witness for the amended C2 at a concrete bump-less material. -/
theorem missing_normal_map_no_model_witness :
    (cParseNoBump "a/b.obj" = Except.ok ([], [cMatNoBump])) ∧
    (cMatNoBump ∈ [cMatNoBump]) ∧
    (cMatNoBump.normal_texture = "") ∧
    (cMatNoBump.unknown_param.lookup "map_Bump" = none) ∧
    (load cParseNoBump cTexOk 0 "a/b.obj").isOk = false :=
  ⟨rfl, by decide, rfl, rfl,
   missing_normal_map_no_model cParseNoBump cTexOk 0 "a/b.obj" [] [cMatNoBump] cMatNoBump
     rfl (by decide) rfl rfl⟩

end Tutorial11
